import Mathlib

/-!
Verification of the ETF compounding strategy simulator (`src/app.py`).

The computation engine of the script is embedded shallowly:

* money amounts and returns are rationals (`ℚ`); real-valued exponents and
  square roots (Python `**` and `np.sqrt`) are modelled over `ℝ`;
* the `run_simulation` loop (app.py lines 159-179) becomes structural
  recursion over the list of monthly returns, threading the loop state
  `(current_value, dividends)` and the accumulated `investment_values`;
* the tax branch (lines 187-203) becomes `tax_rate` / `compute_tax`;
* `analyze_etf` (lines 72-94) becomes an `Option`-valued function: the
  `return None` on short data and the `except: return None` both map to
  `Option.none`, following the convention that fallible code returns an
  option;
* the sidebar investor-type strings are modelled by the inductive
  `InvestorType`; the Python test `"Individual" in investor_type` holds
  exactly for the first selectbox entry, which `isIndividual` mirrors.
-/

namespace ETFSim

/-- Investor type from the sidebar selectbox (app.py lines 58-62):
`"Individual (Equity: 10% LTCG, Debt: Slab)"`, `"Pvt Ltd (25% flat)"`,
`"Custom"`. -/
inductive InvestorType where
  | individual
  | pvtLtd
  | custom
deriving DecidableEq

/-- The Python membership test `"Individual" in investor_type`: true exactly
for the first selectbox string. -/
def InvestorType.isIndividual : InvestorType → Bool
  | .individual => true
  | .pvtLtd => false
  | .custom => false

/-- Result record of `run_simulation` (app.py line 179): the returned tuple
`(investment_values, final_value, total_invested, capital_gain, dividends)`. -/
structure SimResult where
  investment_values : List ℚ
  final_value : ℚ
  total_invested : ℚ
  capital_gain : ℚ
  dividends : ℚ
deriving DecidableEq

/-- The body of the `for i in range(min(months, len(monthly_returns)))` loop of
`run_simulation` (app.py lines 164-174), as structural recursion over the
return sequence.  State: loop index `i`, `current` (= `current_value`) and
`divs` (= `dividends`).  Each iteration appends the post-contribution value to
`investment_values` and, when `i % 3 == 0`, pays a dividend of `0.25%` of the
current value and reinvests it.  Returns
`(investment_values, final current_value, final dividends)`. -/
def simLoop (monthly_investment : ℚ) : List ℚ → ℕ → ℚ → ℚ → List ℚ × ℚ × ℚ
  | [], _, current, divs => ([], current, divs)
  | r :: rs, i, current, divs =>
    let v := current * (1 + r) + monthly_investment
    let d := if i % 3 = 0 then v * (25 / 10000) else 0
    let rest := simLoop monthly_investment rs (i + 1) (v + d) (divs + d)
    (v :: rest.1, rest.2.1, rest.2.2)

/-- Function `run_simulation(initial, monthly_investment, months, monthly_returns)`
(app.py lines 159-179).  The loop runs over
`range(min(months, len(monthly_returns)))`, i.e. over `monthly_returns.take
months`; afterwards `total_invested = initial + monthly_investment * months`
(the full requested horizon, line 177) and
`capital_gain = final_value - total_invested - dividends` (line 178). -/
def run_simulation (initial monthly_investment : ℚ) (months : ℕ)
    (monthly_returns : List ℚ) : SimResult :=
  let out := simLoop monthly_investment (monthly_returns.take months) 0 initial 0
  { investment_values := out.1
  , final_value := out.2.1
  , total_invested := initial + monthly_investment * (months : ℚ)
  , capital_gain := out.2.1 - (initial + monthly_investment * (months : ℚ)) - out.2.2
  , dividends := out.2.2 }

/-- Line 187: `holding_years = months / 12` (app.py line 187). -/
def holding_years (months : ℕ) : ℚ := (months : ℚ) / 12

/-- Short-term equity statutory rate (app.py line 194):
`15.0 if "Individual" in investor_type else 25.0`. -/
def stcg_equity (inv : InvestorType) : ℚ := if inv.isIndividual then 15 else 25

/-- Short-term debt statutory rate (app.py line 199):
`30.0 if "Individual" in investor_type else 25.0`. -/
def stcg_debt (inv : InvestorType) : ℚ := if inv.isIndividual then 30 else 25

/-- Tax-rate selection (app.py lines 190-199): for equity, the profile's
`equity_tax` when `holding_years >= 1`, else the statutory short-term rate;
for debt, `debt_tax` when `holding_years >= 3`, else the statutory rate. -/
def tax_rate (is_equity : Bool) (holding : ℚ) (inv : InvestorType)
    (equity_tax debt_tax : ℚ) : ℚ :=
  if is_equity then
    if 1 ≤ holding then equity_tax else stcg_equity inv
  else
    if 3 ≤ holding then debt_tax else stcg_debt inv

/-- Line 201: `capital_gain_tax = capital_gain * (tax_rate / 100)`. -/
def capital_gain_tax (gain rate : ℚ) : ℚ := gain * (rate / 100)

/-- Line 202: `dividend_tax = dividends * (10/100)`; the rate is the
literal constant `10/100`. -/
def dividend_tax (dividends : ℚ) : ℚ := dividends * (10 / 100)

/-- Tax results of app.py lines 187-203. -/
structure TaxCalc where
  rate : ℚ
  cg_tax : ℚ
  div_tax : ℚ
  total_tax : ℚ
deriving DecidableEq

/-- The whole tax computation (app.py lines 187-203) as one function of the
investor type, the profile rates, the instrument kind, the holding period in
months, the realized capital gain and the dividends. -/
def compute_tax (inv : InvestorType) (equity_tax debt_tax : ℚ) (is_equity : Bool)
    (months : ℕ) (gain dividends : ℚ) : TaxCalc :=
  let rate := tax_rate is_equity (holding_years months) inv equity_tax debt_tax
  { rate := rate
  , cg_tax := capital_gain_tax gain rate
  , div_tax := dividend_tax dividends
  , total_tax := capital_gain_tax gain rate + dividend_tax dividends }

/-- Line 206: `net_value = final_value - total_tax`, composed with the
simulation (line 182) and the tax computation; the script fixes
`is_equity = True` (line 188). -/
def pipeline_net_value (inv : InvestorType) (equity_tax debt_tax : ℚ)
    (initial monthly_investment : ℚ) (months : ℕ) (monthly_returns : List ℚ) : ℚ :=
  let s := run_simulation initial monthly_investment months monthly_returns
  let t := compute_tax inv equity_tax debt_tax true months s.capital_gain s.dividends
  s.final_value - t.total_tax

/-- Line 208: `annualized_return = ((net_value / total_invested) ** (12/months) - 1) * 100`
(app.py line 208), as a function of the numerator, the base of the ratio, and
the number of months; the exponentiation is real-valued (`Real.rpow`). -/
noncomputable def annualized_return (net_value base : ℚ) (months : ℕ) : ℝ :=
  (((net_value : ℝ) / (base : ℝ)) ^ ((12 : ℝ) / (months : ℝ)) - 1) * 100

/-- The annualized return the script actually computes (app.py line 208): the
base of the ratio is `total_invested` from the simulation. -/
noncomputable def pipeline_annualized (inv : InvestorType) (equity_tax debt_tax : ℚ)
    (initial monthly_investment : ℚ) (months : ℕ) (monthly_returns : List ℚ) : ℝ :=
  annualized_return
    (pipeline_net_value inv equity_tax debt_tax initial monthly_investment months monthly_returns)
    ((run_simulation initial monthly_investment months monthly_returns).total_invested)
    months

/-- The terminal capital gain as the specification describes it (spec §4.2):
final value minus the amount actually contributed — the initial value plus the
contributions of the periods actually simulated, i.e. `min months
(length of the return sequence)` of them — minus the dividends received.
Stated for comparison with the `capital_gain` field the code computes. -/
def claimed_capital_gain (initial monthly_investment : ℚ) (months : ℕ)
    (monthly_returns : List ℚ) : ℚ :=
  let s := run_simulation initial monthly_investment months monthly_returns
  s.final_value
    - (initial + monthly_investment * ((min months monthly_returns.length : ℕ) : ℚ))
    - s.dividends

/-- Dividend total read off a trajectory: starting at loop index `i`, each
entry whose index is divisible by 3 pays `0.25%` of that entry's value.
Summary function used to state what `run_simulation` accumulates into
`dividends`. -/
def divSum : ℕ → List ℚ → ℚ
  | _, [] => 0
  | i, v :: vs => (if i % 3 = 0 then v * (25 / 10000) else 0) + divSum (i + 1) vs

/-- Arithmetic mean of a list, `pandas.Series.mean` over the valid entries. -/
def mean (l : List ℚ) : ℚ := l.sum / (l.length : ℚ)

/-- Line 81: `data['Adj Close'].pct_change()` followed by dropping the leading `NaN`:
the simple percentage change between consecutive observations (app.py
line 81). -/
def pct_changes (prices : List ℚ) : List ℚ :=
  List.zipWith (fun p q => (q - p) / p) prices prices.tail

/-- Sample variance with one delta degree of freedom, the square of
`pandas.Series.std` (the default `ddof=1`). -/
def sampleVar (l : List ℚ) : ℚ :=
  (l.map fun x => (x - mean l) ^ 2).sum / ((l.length : ℚ) - 1)

/-- Line 82: `annual_return = data['Daily_Return'].mean() * 252 * 100`
(app.py line 82). -/
def annualReturnOf (prices : List ℚ) : ℚ := mean (pct_changes prices) * 252 * 100

/-- Line 83: `annual_volatility = data['Daily_Return'].std() * np.sqrt(252) * 100`
(app.py line 83). -/
noncomputable def annualVolatilityOf (prices : List ℚ) : ℝ :=
  Real.sqrt ((sampleVar (pct_changes prices) : ℚ) : ℝ) * Real.sqrt 252 * 100

/-- The performance record `analyze_etf` returns (app.py lines 86-92); the
`Symbol` string field is presentation data and is omitted. -/
structure Metrics where
  annualReturn : ℚ
  annualVolatility : ℝ
  sharpe : ℝ
  lastPrice : ℚ

open Classical in
/-- The metrics computed on app.py lines 81-92:
`sharpe_ratio = annual_return / annual_volatility if annual_volatility != 0
else 0` (line 84) and `Last Price = data['Adj Close'].iloc[-1]` (line 91). -/
noncomputable def mkMetrics (prices : List ℚ) : Metrics :=
  { annualReturn := annualReturnOf prices
  , annualVolatility := annualVolatilityOf prices
  , sharpe :=
      if annualVolatilityOf prices ≠ 0 then
        ((annualReturnOf prices : ℚ) : ℝ) / annualVolatilityOf prices
      else 0
  , lastPrice := prices.getLastD 0 }

/-- Function `analyze_etf` (app.py lines 72-94) given the fetched price series: series
with fewer than 10 observations are rejected (`if len(data) < 10: return
None`, line 78); the rejection value `None` is `Option.none` here.  Otherwise
the metrics of lines 81-92 are returned. -/
noncomputable def analyze_etf (prices : List ℚ) : Option Metrics :=
  if prices.length < 10 then none else some (mkMetrics prices)

open Classical in
/-- Modelled from the spec: the Sharpe ratio of spec §4.5, which subtracts a
configurable risk-free rate before dividing — `(annualized_return −
risk_free_rate) / annualized_volatility`, with sentinel `0` at zero
volatility.  The code (app.py line 84) has no risk-free-rate input; this
definition exists to compare the claim's formula with the code's. -/
noncomputable def sharpe_spec (ret rf vol : ℝ) : ℝ :=
  if vol ≠ 0 then (ret - rf) / vol else 0

/-- A concrete ten-observation price series used to instantiate the analysis
theorems: its percentage changes alternate between `1` and `-1/2`. -/
def prices10 : List ℚ := [1, 2, 1, 2, 1, 2, 1, 2, 1, 2]

end ETFSim

namespace ETFSim

/-- Claim C1 (counterexample): the capital-gains tax of app.py line 201 is not
`max(gain, 0) * rate`: at gain `-100` and rate `10` it is `-10`, a negative
tax (a rebate from a loss), not `0`. -/
theorem capital_gain_tax_counterexample :
    capital_gain_tax (-100) 10 ≠ max (-100 : ℚ) 0 * (10 / 100) ∧
      capital_gain_tax (-100) 10 < 0 := by
  constructor <;> norm_num [capital_gain_tax]

/-- Claim C1 (amended): the capital-gains tax equals `gain * rate / 100` with
no clamping at zero; a strictly negative gain together with a positive rate
yields a strictly negative capital-gains tax (a rebate from a loss). -/
theorem capital_gain_tax_unclamped (gain rate : ℚ) :
    capital_gain_tax gain rate = gain * rate / 100 ∧
      (gain < 0 → 0 < rate → capital_gain_tax gain rate < 0) := by
  refine ⟨by rw [capital_gain_tax]; ring, fun hg hr => ?_⟩
  have : gain * (rate / 100) < 0 := mul_neg_of_neg_of_pos hg (by positivity)
  simpa [capital_gain_tax] using this

/-- Witness for `capital_gain_tax_unclamped` at gain `-100`, rate `10`. -/
theorem capital_gain_tax_unclamped_witness :
    (-100 : ℚ) < 0 ∧ (0 : ℚ) < 10 ∧ capital_gain_tax (-100) 10 < 0 :=
  ⟨by norm_num, by norm_num,
    (capital_gain_tax_unclamped (-100) 10).2 (by norm_num) (by norm_num)⟩

/-- The simulation loop produces one trajectory entry per return consumed. -/
theorem simLoop_length (m : ℚ) (l : List ℚ) :
    ∀ i c dv, ((simLoop m l i c dv).1).length = l.length := by
  induction l with
  | nil => intro i c dv; rfl
  | cons r rs ih => intro i c dv; simp [simLoop, ih]

/-- The dividends the loop accumulates are exactly the `divSum` of the
trajectory it produces: `0.25%` of each entry whose index is divisible
by 3. -/
theorem simLoop_divs_eq (m : ℚ) (l : List ℚ) :
    ∀ i c dv, (simLoop m l i c dv).2.2 = dv + divSum i (simLoop m l i c dv).1 := by
  induction l with
  | nil => intro i c dv; simp [simLoop, divSum]
  | cons r rs ih =>
    intro i c dv
    simp only [simLoop, divSum]
    rw [ih]
    ring

/-- Accumulated dividends never decrease along the loop, provided the running
value is positive, the contribution is non-negative and every return exceeds
`-100%`. -/
theorem simLoop_divs_le (m : ℚ) (l : List ℚ) :
    ∀ i c dv, 0 < c → 0 ≤ m → (∀ r ∈ l, -1 < r) →
      dv ≤ (simLoop m l i c dv).2.2 := by
  induction l with
  | nil => intro i c dv _ _ _; simp [simLoop]
  | cons r rs ih =>
    intro i c dv hc hm hl
    have hr : (0 : ℚ) < 1 + r := by
      have := hl r (List.mem_cons_self r rs)
      linarith
    have hv : 0 < c * (1 + r) + m := add_pos_of_pos_of_nonneg (mul_pos hc hr) hm
    have hd : 0 ≤ if i % 3 = 0 then (c * (1 + r) + m) * (25 / 10000) else 0 := by
      split
      · exact mul_nonneg hv.le (by norm_num)
      · exact le_refl 0
    have hc' : 0 < c * (1 + r) + m +
        (if i % 3 = 0 then (c * (1 + r) + m) * (25 / 10000) else 0) :=
      add_pos_of_pos_of_nonneg hv hd
    have hrs : ∀ x ∈ rs, -1 < x := fun x hx => hl x (List.mem_cons_of_mem r hx)
    have step := ih (i + 1)
      (c * (1 + r) + m + (if i % 3 = 0 then (c * (1 + r) + m) * (25 / 10000) else 0))
      (dv + (if i % 3 = 0 then (c * (1 + r) + m) * (25 / 10000) else 0))
      hc' hm hrs
    simp only [simLoop]
    calc dv ≤ dv + (if i % 3 = 0 then (c * (1 + r) + m) * (25 / 10000) else 0) :=
          le_add_of_nonneg_right hd
      _ ≤ _ := step

/-- Claim C3 (counterexample): with initial `100000`, SIP `1000`, a requested
horizon of 5 months but only 2 available returns (both `0`), the code's
`capital_gain` is `-3000` while the gain based on the contributions actually
made is `0`: the code deducts all 5 requested contributions although only 2
were added. -/
theorem capital_gain_truncation_counterexample :
    (run_simulation 100000 1000 5 [0, 0]).capital_gain
      ≠ claimed_capital_gain 100000 1000 5 [0, 0] := by
  norm_num [run_simulation, claimed_capital_gain, simLoop]

/-- Claim C3 (amended): the terminal capital gain equals final value minus
`initial + monthly_investment * months` (the full requested horizon, app.py
line 177) minus dividends; when the return sequence is shorter than the
horizon this is the effective-contribution gain of the claim minus
`monthly_investment` times the number of requested-but-unsimulated periods. -/
theorem capital_gain_counts_requested_months (initial monthly_investment : ℚ)
    (months : ℕ) (rs : List ℚ) :
    (run_simulation initial monthly_investment months rs).capital_gain
      = claimed_capital_gain initial monthly_investment months rs
        - monthly_investment * ((months - min months rs.length : ℕ) : ℚ) := by
  have hmin : min months rs.length ≤ months := Nat.min_le_left _ _
  simp only [run_simulation, claimed_capital_gain]
  push_cast [hmin]
  ring

/-- Claim C5: the trajectory has exactly `min months (length of the return
sequence)` entries — the loop never synthesizes missing returns — and a
zero-length return sequence yields an empty trajectory and zero dividends. -/
theorem trajectory_effective_horizon (initial monthly_investment : ℚ)
    (months : ℕ) (rs : List ℚ) :
    ((run_simulation initial monthly_investment months rs).investment_values).length
        = min months rs.length ∧
      (rs = [] →
        (run_simulation initial monthly_investment months rs).investment_values = [] ∧
          (run_simulation initial monthly_investment months rs).dividends = 0) := by
  constructor
  · simp [run_simulation, simLoop_length]
  · rintro rfl
    constructor <;> simp [run_simulation, simLoop]

/-- Witness for `trajectory_effective_horizon` at the empty return sequence. -/
theorem trajectory_effective_horizon_witness :
    ([] : List ℚ) = [] ∧
      ((run_simulation 100000 0 5 []).investment_values = [] ∧
        (run_simulation 100000 0 5 []).dividends = 0) :=
  ⟨rfl, (trajectory_effective_horizon 100000 0 5 []).2 rfl⟩

/-- With zero contribution, a positive running value and positive returns,
the loop's trajectory is a strictly increasing chain, and its first entry
exceeds the starting value. -/
theorem simLoop_chain_lt (l : List ℚ) :
    ∀ i c dv, 0 < c → (∀ x ∈ l, 0 < x) →
      List.Chain' (· < ·) (simLoop 0 l i c dv).1 ∧
        ∀ v ∈ ((simLoop 0 l i c dv).1).head?, c < v := by
  induction l with
  | nil =>
    intro i c dv _ _
    constructor
    · simp [simLoop]
    · simp [simLoop]
  | cons r rs ih =>
    intro i c dv hc hl
    have hr : 0 < r := hl r (List.mem_cons_self r rs)
    have hv : c < c * (1 + r) + 0 := by nlinarith
    have hv0 : 0 < c * (1 + r) + 0 := lt_trans hc hv
    have hd : 0 ≤ if i % 3 = 0 then (c * (1 + r) + 0) * (25 / 10000) else 0 := by
      split
      · exact mul_nonneg hv0.le (by norm_num)
      · exact le_refl 0
    have hc' : 0 < c * (1 + r) + 0 +
        (if i % 3 = 0 then (c * (1 + r) + 0) * (25 / 10000) else 0) :=
      add_pos_of_pos_of_nonneg hv0 hd
    obtain ⟨ih1, ih2⟩ := ih (i + 1)
      (c * (1 + r) + 0 + (if i % 3 = 0 then (c * (1 + r) + 0) * (25 / 10000) else 0))
      (dv + (if i % 3 = 0 then (c * (1 + r) + 0) * (25 / 10000) else 0))
      hc' (fun x hx => hl x (List.mem_cons_of_mem r hx))
    constructor
    · simp only [simLoop]
      rw [List.chain'_cons']
      refine ⟨fun w hw => ?_, ih1⟩
      have : c * (1 + r) + 0 +
          (if i % 3 = 0 then (c * (1 + r) + 0) * (25 / 10000) else 0) < w := ih2 w hw
      linarith [hd]
    · simp only [simLoop, List.head?_cons]
      intro v hv'
      simp only [Option.mem_def, Option.some.injEq] at hv'
      exact hv' ▸ hv

/-- Claim C8: in a simulation with a non-empty return sequence, every period
return equal to a constant `r > 0` and zero periodic contribution, the
trajectory of portfolio values is strictly increasing from period to period.
The positivity of the initial value is an app invariant: the sidebar
constrains the initial capital to at least `100000`. -/
theorem trajectory_strictly_increasing (initial r : ℚ) (months : ℕ)
    (rs : List ℚ) (_hne : rs ≠ []) (h0 : 0 < initial) (hr : 0 < r)
    (hall : ∀ x ∈ rs, x = r) :
    List.Chain' (· < ·)
      ((run_simulation initial 0 months rs).investment_values) := by
  have hpos : ∀ x ∈ rs.take months, 0 < x := fun x hx =>
    (hall x (List.take_subset months rs hx)) ▸ hr
  have := (simLoop_chain_lt (rs.take months) 0 initial 0 h0 hpos).1
  simpa [run_simulation] using this

/-- Witness for `trajectory_strictly_increasing`: two periods at `r = 1/10`
from initial capital `100000`. -/
theorem trajectory_strictly_increasing_witness :
    ([(1 : ℚ)/10, 1/10] ≠ []) ∧ ((0 : ℚ) < 100000) ∧ ((0 : ℚ) < 1/10) ∧
      List.Chain' (· < ·)
        ((run_simulation 100000 0 2 [1/10, 1/10]).investment_values) :=
  ⟨by simp, by norm_num, by norm_num,
    trajectory_strictly_increasing 100000 (1/10) 2 [1/10, 1/10]
      (by simp) (by norm_num) (by norm_num) (by norm_num)⟩

/-- Claim C10: the dividends a simulation accumulates are exactly `0.25%` of
the trajectory value at every period whose index is divisible by 3 (periods
0, 3, 6, ...), and any simulation over at least one period with positive
initial value, non-negative contribution and returns above `-100%` accrues
strictly positive total dividends.  Reinvestment is part of the loop itself:
each dividend is added back to the running value before the next period. -/
theorem dividend_schedule (initial monthly_investment : ℚ) (months : ℕ)
    (rs : List ℚ) :
    (run_simulation initial monthly_investment months rs).dividends
        = divSum 0 ((run_simulation initial monthly_investment months rs).investment_values) ∧
      (0 < initial → 0 ≤ monthly_investment → (∀ r ∈ rs, -1 < r) →
        1 ≤ months → rs ≠ [] →
        0 < (run_simulation initial monthly_investment months rs).dividends) := by
  constructor
  · have := simLoop_divs_eq monthly_investment (rs.take months) 0 initial 0
    simpa [run_simulation] using this
  · intro h0 hm hrs hmonths hne
    obtain ⟨a, as, rfl⟩ : ∃ a as, rs = a :: as := by
      cases rs with
      | nil => exact absurd rfl hne
      | cons a as => exact ⟨a, as, rfl⟩
    obtain ⟨k, rfl⟩ : ∃ k, months = k + 1 := ⟨months - 1, by omega⟩
    have ha : (0 : ℚ) < 1 + a := by
      have := hrs a (List.mem_cons_self a as)
      linarith
    have hv : 0 < initial * (1 + a) + monthly_investment :=
      add_pos_of_pos_of_nonneg (mul_pos h0 ha) hm
    have hd : 0 < (initial * (1 + a) + monthly_investment) * (25 / 10000) :=
      mul_pos hv (by norm_num)
    have hrest : ∀ x ∈ as.take k, -1 < x := fun x hx =>
      hrs x (List.mem_cons_of_mem a (List.take_subset k as hx))
    have hle := simLoop_divs_le monthly_investment (as.take k) 1
      (initial * (1 + a) + monthly_investment
        + (initial * (1 + a) + monthly_investment) * (25 / 10000))
      (0 + (initial * (1 + a) + monthly_investment) * (25 / 10000))
      (add_pos_of_pos_of_nonneg hv hd.le) hm hrest
    have hout : (run_simulation initial monthly_investment (k + 1) (a :: as)).dividends
        = (simLoop monthly_investment (as.take k) 1
            (initial * (1 + a) + monthly_investment
              + (initial * (1 + a) + monthly_investment) * (25 / 10000))
            (0 + (initial * (1 + a) + monthly_investment) * (25 / 10000))).2.2 := by
      simp [run_simulation, simLoop]
    rw [hout]
    calc (0 : ℚ) < 0 + (initial * (1 + a) + monthly_investment) * (25 / 10000) := by
          linarith
      _ ≤ _ := hle

/-- Witness for `dividend_schedule` (positivity part): one period, return `0`,
initial capital `100000`, no SIP. -/
theorem dividend_schedule_witness :
    ((0 : ℚ) < 100000) ∧ ((0 : ℚ) ≤ 0) ∧ (∀ r ∈ [(0 : ℚ)], -1 < r) ∧
      (1 ≤ 1) ∧ ([(0 : ℚ)] ≠ []) ∧
      0 < (run_simulation 100000 0 1 [0]).dividends :=
  ⟨by norm_num, le_refl 0, by norm_num, le_refl 1, by simp,
    (dividend_schedule 100000 0 1 [0]).2 (by norm_num) (le_refl 0)
      (by norm_num) (le_refl 1) (by simp)⟩

/-- Claim C4: for an equity-like position, a holding period of at least one
year (`months / 12 ≥ 1`, i.e. `months ≥ 12`) selects the profile's long-term
equity rate, and a holding period strictly under one year selects the
short-term statutory rate determined by the entity kind, so a holding of
exactly one year and one just under it select different rate buckets. -/
theorem tax_bucket_boundary (inv : InvestorType) (equity_tax debt_tax : ℚ)
    (months : ℕ) :
    (12 ≤ months →
      tax_rate true (holding_years months) inv equity_tax debt_tax = equity_tax) ∧
      (months < 12 →
        tax_rate true (holding_years months) inv equity_tax debt_tax
          = stcg_equity inv) := by
  constructor
  · intro h
    have h1 : (1 : ℚ) ≤ holding_years months := by
      rw [holding_years, le_div_iff₀ (by norm_num : (0 : ℚ) < 12)]
      norm_num
      exact_mod_cast h
    simp [tax_rate, h1]
  · intro h
    have h1 : ¬ (1 : ℚ) ≤ holding_years months := by
      rw [holding_years, le_div_iff₀ (by norm_num : (0 : ℚ) < 12)]
      norm_num
      exact_mod_cast h
    simp [tax_rate, h1]

/-- Witness for `tax_bucket_boundary`: at 12 months the individual profile
rate `10` is selected; at 11 months the statutory short-term rate is. -/
theorem tax_bucket_boundary_witness :
    ((12 ≤ 12) ∧
        tax_rate true (holding_years 12) InvestorType.individual 10 20 = 10) ∧
      ((11 < 12) ∧
        tax_rate true (holding_years 11) InvestorType.individual 10 20
          = stcg_equity InvestorType.individual) :=
  ⟨⟨le_refl 12, (tax_bucket_boundary InvestorType.individual 10 20 12).1 (le_refl 12)⟩,
    ⟨by omega, (tax_bucket_boundary InvestorType.individual 10 20 11).2 (by omega)⟩⟩

/-- Claim C9: the dividend tax is always `dividends * 10/100` (app.py
line 202), whatever the investor type and whatever custom equity or debt
rates are supplied: the `10%` rate is not configurable through the tax
profile. -/
theorem dividend_tax_fixed_rate (inv : InvestorType) (equity_tax debt_tax : ℚ)
    (is_equity : Bool) (months : ℕ) (gain divs : ℚ) :
    (compute_tax inv equity_tax debt_tax is_equity months gain divs).div_tax
      = divs * (10 / 100) := rfl

/-- Claim C2 (counterexample): with initial `100000`, SIP `1000`, 12 months
and a single zero return, the annualized return the script computes (base
`total_invested = 112000`) differs from the claim's formula with the initial
principal `100000` as the base of the ratio. -/
theorem annualized_base_counterexample :
    pipeline_annualized InvestorType.individual 10 20 100000 1000 12 [0]
      ≠ annualized_return
          (pipeline_net_value InvestorType.individual 10 20 100000 1000 12 [0])
          100000 12 := by
  have hnet : pipeline_net_value InvestorType.individual 10 20 100000 1000 12 [0]
      = 409309 / 4 := by
    norm_num [pipeline_net_value, run_simulation, simLoop, compute_tax, tax_rate,
      holding_years, capital_gain_tax, dividend_tax, stcg_equity]
  have hti : (run_simulation (100000 : ℚ) 1000 12 [0]).total_invested = 112000 := by
    norm_num [run_simulation]
  unfold pipeline_annualized
  rw [hnet, hti]
  unfold annualized_return
  have h12 : ((12 : ℕ) : ℝ) = (12 : ℝ) := by norm_num
  rw [h12, div_self (by norm_num : (12 : ℝ) ≠ 0), Real.rpow_one, Real.rpow_one]
  push_cast
  norm_num

/-- Claim C2 (amended): the annualized return of app.py line 208 is
`((net_value / total_invested) ** (12/months) - 1) * 100` with
`total_invested = initial + monthly_investment * months` as the base of the
ratio; it coincides with the claim's initial-principal formula exactly in the
no-SIP case `monthly_investment = 0`.  No `DegenerateHorizonError` exists in
the code; the sidebar constrains `months ≥ 1` and `initial ≥ 100000`, keeping
the computation away from the degenerate inputs. -/
theorem annualized_base_total_invested (inv : InvestorType)
    (equity_tax debt_tax initial monthly_investment : ℚ) (months : ℕ)
    (rs : List ℚ) :
    pipeline_annualized inv equity_tax debt_tax initial monthly_investment months rs
        = annualized_return
            (pipeline_net_value inv equity_tax debt_tax initial monthly_investment months rs)
            (initial + monthly_investment * (months : ℚ)) months ∧
      (monthly_investment = 0 →
        pipeline_annualized inv equity_tax debt_tax initial monthly_investment months rs
          = annualized_return
              (pipeline_net_value inv equity_tax debt_tax initial monthly_investment months rs)
              initial months) := by
  refine ⟨rfl, ?_⟩
  rintro rfl
  have h0 : (run_simulation initial 0 months rs).total_invested = initial := by
    simp [run_simulation]
  unfold pipeline_annualized
  rw [h0]

/-- Witness for `annualized_base_total_invested` in the no-SIP case. -/
theorem annualized_base_total_invested_witness :
    ((0 : ℚ) = 0) ∧
      pipeline_annualized InvestorType.individual 10 20 100000 0 12 [0]
        = annualized_return
            (pipeline_net_value InvestorType.individual 10 20 100000 0 12 [0])
            100000 12 :=
  ⟨rfl, (annualized_base_total_invested InvestorType.individual 10 20 100000 0 12 [0]).2 rfl⟩

/-- Claim C6: a price series with fewer than the configured minimum of 10
observations is rejected — `analyze_etf` produces the failure value `none`
(`return None`, app.py line 79), which the caller surfaces by excluding the
instrument rather than substituting a default number — and otherwise the
statistics are computed from the simple percentage changes between
consecutive observations (`pct_change`, line 81). -/
theorem analyze_min_observations (prices : List ℚ) :
    (prices.length < 10 → analyze_etf prices = none) ∧
      (10 ≤ prices.length →
        analyze_etf prices = some (mkMetrics prices) ∧
          (mkMetrics prices).annualReturn = mean (pct_changes prices) * 252 * 100) := by
  constructor
  · intro h
    simp [analyze_etf, h]
  · intro h
    have h' : ¬ prices.length < 10 := not_lt.mpr h
    exact ⟨by simp [analyze_etf, h'], rfl⟩

/-- Witness for `analyze_min_observations`: a one-observation series is
rejected; the ten-observation series `prices10` is analysed. -/
theorem analyze_min_observations_witness :
    (([1] : List ℚ).length < 10 ∧ analyze_etf [1] = none) ∧
      (10 ≤ prices10.length ∧
        (analyze_etf prices10 = some (mkMetrics prices10) ∧
          (mkMetrics prices10).annualReturn = mean (pct_changes prices10) * 252 * 100)) :=
  ⟨⟨by norm_num, (analyze_min_observations [1]).1 (by norm_num)⟩,
    ⟨by norm_num [prices10], (analyze_min_observations prices10).2 (by norm_num [prices10])⟩⟩

/-- Claim C7 (counterexample): for the analysed series `prices10` the code's
Sharpe ratio (app.py line 84) differs from the claim's formula
`(annualized return − risk-free rate) / annualized volatility` at the
configured risk-free rate `5`: the code subtracts no risk-free rate at all. -/
theorem sharpe_riskfree_counterexample :
    analyze_etf prices10 = some (mkMetrics prices10) ∧
      (mkMetrics prices10).sharpe
        ≠ sharpe_spec (((mkMetrics prices10).annualReturn : ℚ) : ℝ) 5
            ((mkMetrics prices10).annualVolatility) := by
  have hvarq : sampleVar (pct_changes prices10) = 5 / 8 := by
    norm_num [prices10, pct_changes, sampleVar, mean]
  have hvol : (mkMetrics prices10).annualVolatility
      = Real.sqrt ((5 : ℝ) / 8) * Real.sqrt 252 * 100 := by
    show annualVolatilityOf prices10 = _
    rw [annualVolatilityOf, hvarq]
    norm_num
  have hvolpos : 0 < (mkMetrics prices10).annualVolatility := by
    rw [hvol]
    have h1 : (0 : ℝ) < Real.sqrt ((5 : ℝ) / 8) := Real.sqrt_pos.mpr (by norm_num)
    have h2 : (0 : ℝ) < Real.sqrt 252 := Real.sqrt_pos.mpr (by norm_num)
    positivity
  have hvne : (mkMetrics prices10).annualVolatility ≠ 0 := ne_of_gt hvolpos
  have hvne' : annualVolatilityOf prices10 ≠ 0 := hvne
  refine ⟨rfl, ?_⟩
  have hsh : (mkMetrics prices10).sharpe
      = (((mkMetrics prices10).annualReturn : ℚ) : ℝ)
          / (mkMetrics prices10).annualVolatility := by
    show (if annualVolatilityOf prices10 ≠ 0 then _ else _) = _
    rw [if_pos hvne']
    rfl
  rw [hsh]
  simp only [sharpe_spec]
  rw [if_pos hvne]
  intro heq
  field_simp [hvne] at heq
  linarith

/-- Claim C7 (amended): the Sharpe ratio the code computes is
`annual_return / annual_volatility` — no risk-free rate is subtracted, the
code having no risk-free-rate input — when the annualized volatility is
nonzero, and it is the sentinel `0` when the volatility is exactly zero
(never a division by zero). -/
theorem sharpe_no_riskfree_and_sentinel (prices : List ℚ) (m : Metrics)
    (h : analyze_etf prices = some m) :
    (m.annualVolatility ≠ 0 →
        m.sharpe = ((m.annualReturn : ℚ) : ℝ) / m.annualVolatility) ∧
      (m.annualVolatility = 0 → m.sharpe = 0) := by
  by_cases hlen : prices.length < 10
  · simp [analyze_etf, hlen] at h
  · have hm : mkMetrics prices = m := by simpa [analyze_etf, hlen] using h
    subst hm
    constructor
    · intro hv
      have hv' : annualVolatilityOf prices ≠ 0 := hv
      show (if annualVolatilityOf prices ≠ 0 then _ else _) = _
      rw [if_pos hv']
      rfl
    · intro hv
      have hv' : annualVolatilityOf prices = 0 := hv
      show (if annualVolatilityOf prices ≠ 0 then _ else _) = _
      rw [if_neg (not_not_intro hv')]

/-- Witness for `sharpe_no_riskfree_and_sentinel` at the series `prices10`. -/
theorem sharpe_no_riskfree_and_sentinel_witness :
    analyze_etf prices10 = some (mkMetrics prices10) ∧
      (((mkMetrics prices10).annualVolatility ≠ 0 →
          (mkMetrics prices10).sharpe
            = (((mkMetrics prices10).annualReturn : ℚ) : ℝ)
                / (mkMetrics prices10).annualVolatility) ∧
        ((mkMetrics prices10).annualVolatility = 0 →
          (mkMetrics prices10).sharpe = 0)) :=
  ⟨rfl, sharpe_no_riskfree_and_sentinel prices10 (mkMetrics prices10) rfl⟩

end ETFSim
